import Mathlib

/-!
# Group management handlers of `api4/group.go`

A shallow embedding of the eleven HTTP handlers of `src/api4/group.go`
(`createGroup`, `getGroup`, `getGroups`, `updateGroup`, `deleteGroup`,
`createOrDeleteGroupMember`, `createGroupSyncable`, `getGroupSyncable`,
`getGroupSyncables`, `updateGroupSyncable`, `deleteGroupSyncable`).

A Go handler `func(c *Context, w http.ResponseWriter, r *http.Request)` mutates
the error slot `c.Err`, calls methods of `c.App` and writes to `w`.  Here a
handler is a function from the application (`App`), the JSON codec (`Codec`)
and the request (`Request`) to the final `State`: the error slot, the
sequence of `c.App` method calls in program order, the status passed to
`w.WriteHeader` and the chunks passed to `w.Write`.  An early `return` of the
Go code is the end of an `if`/`match` branch.
-/

namespace Api4

/-! ## Data model (package `model`) -/

/-- The type `model.GroupSyncableType` with its two named constants `GSTeam` and
`GSChannel`; any other value of the underlying Go type is `unrecognized`. -/
inductive GroupSyncableType where
  | GSTeam
  | GSChannel
  | unrecognized (raw : Nat)
  deriving DecidableEq

/-- Modelled from the spec: `model.GroupSyncableTypes`, the names joined into the
parameter names of the error messages (section 4.3 shows `Group[Team|Channel]`). -/
def GroupSyncableTypes : List String := ["Team", "Channel"]

/-- The struct `model.Group`; the handlers only touch `Id`. -/
structure Group where
  Id : String
  DisplayName : String
  RemoteId : String
  CreateAt : Int
  UpdateAt : Int
  DeleteAt : Int
  deriving DecidableEq

/-- The struct `model.GroupMember`. -/
structure GroupMember where
  GroupId : String
  UserId : String
  CreateAt : Int
  DeleteAt : Int
  deriving DecidableEq

/-- The struct `model.GroupSyncable`, with the five fields the composite literal at
lines 419-425 sets; `Type_` is the Go field `Type`. -/
structure GroupSyncable where
  GroupId : String
  SyncableId : String
  AutoAdd : Bool
  CanLeave : Bool
  Type_ : GroupSyncableType
  deriving DecidableEq

/-- The struct `model.GroupSyncablePatch`: the two policy flags only. -/
structure GroupSyncablePatch where
  AutoAdd : Bool
  CanLeave : Bool
  deriving DecidableEq

/-- The struct `model.Permission`, identified by its id. -/
structure Permission where
  Id : String
  deriving DecidableEq

/-- Modelled from the spec: the constant `model.PERMISSION_MANAGE_SYSTEM`, the
system-management permission every handler asks for. -/
def PERMISSION_MANAGE_SYSTEM : Permission := ⟨"manage_system"⟩

/-- The session of the caller (`c.Session`). -/
structure Session where
  Id : String
  UserId : String
  deriving DecidableEq

/-- The feature flags of a license; `LDAP` is the directory-integration flag (a `*bool`
in Go, which the handlers dereference without a nil check; it is taken as set). -/
structure Features where
  LDAP : Bool
  deriving DecidableEq

/-- The struct `model.License`. -/
structure License where
  Features : Features
  deriving DecidableEq

/-- The terminal condition held by `c.Err` (a `*model.AppError`).  `invalidParam` is what
`c.SetInvalidParam` and the `c.Require...` extractors set, `permissionDenied` what
`c.SetPermissionError` sets, and `appError` a value built by
`model.NewAppError(where, id, nil, details, status)`. -/
inductive AppError where
  | invalidParam (parameter : String)
  | permissionDenied (permissionId : String)
  | appError (Where : String) (Id : String) (DetailedError : String) (StatusCode : Nat)
  deriving DecidableEq

/-- The call `model.NewAppError(where, id, nil, details, status)`. -/
def NewAppError (Where Id details : String) (status : Nat) : AppError :=
  .appError Where Id details status

/-- The constant `http.StatusOK`. -/
def StatusOK : Nat := 200

/-- The constant `http.StatusCreated`. -/
def StatusCreated : Nat := 201

/-- The constant `http.StatusNotImplemented`. -/
def StatusNotImplemented : Nat := 501

/-- The constant `apiGroupMemberActionCreate` (`iota` = 0). -/
def apiGroupMemberActionCreate : Int := 0

/-- The constant `apiGroupMemberActionDelete` (`iota` = 1). -/
def apiGroupMemberActionDelete : Int := 1

/-! ## Request, application service and codec -/

/-- The resolved path and query parameters `c.Params`; an absent path segment is the
empty string. -/
structure Params where
  GroupId : String
  UserId : String
  TeamId : String
  ChannelId : String
  Page : Int
  PerPage : Int
  deriving DecidableEq

/-- The request body `r.Body`: the bytes a full read yields and the read error, if any
(what `ioutil.ReadAll` returns). -/
structure Body where
  data : String
  readErr : Option String
  deriving DecidableEq

/-- What a handler reads of the request: session, parameters and body. -/
structure Request where
  Session : Session
  Params : Params
  Body : Body
  deriving DecidableEq

/-- The application service `c.App`.  A Go method returning `(*T, *model.AppError)` is a
function to `Except AppError T`: `.error e` when the error is not nil. -/
structure App where
  License : Option License
  SessionHasPermissionTo : Session → Permission → Bool
  CreateGroup : Group → Except AppError Group
  GetGroup : String → Except AppError Group
  GetGroupsPage : Int → Int → Except AppError (List Group)
  UpdateGroup : Group → Except AppError Group
  DeleteGroup : String → Except AppError Group
  CreateGroupMember : String → String → Except AppError GroupMember
  DeleteGroupMember : String → String → Except AppError GroupMember
  CreateGroupSyncable : GroupSyncable → Except AppError GroupSyncable
  GetGroupSyncable : String → String → GroupSyncableType → Except AppError GroupSyncable
  GetGroupSyncablesPage :
    String → GroupSyncableType → Int → Int → Except AppError (List GroupSyncable)
  UpdateGroupSyncable : GroupSyncable → Except AppError GroupSyncable
  DeleteGroupSyncable : String → String → GroupSyncableType → Except AppError GroupSyncable

/-- The JSON primitives the handlers use.  `GroupFromJson` is `model.GroupFromJson`
(nil on failure); `Unmarshal...` is `json.Unmarshal` into a nil pointer (an error, or the
pointer, which stays nil for the JSON text `null`); `Marshal...` is `json.Marshal`. -/
structure Codec where
  GroupFromJson : Body → Option Group
  UnmarshalGroupSyncable : String → Except String (Option GroupSyncable)
  UnmarshalGroupSyncablePatch : String → Except String (Option GroupSyncablePatch)
  MarshalGroup : Group → Except String String
  MarshalGroups : List Group → Except String String
  MarshalGroupMember : GroupMember → Except String String
  MarshalGroupSyncable : GroupSyncable → Except String String
  MarshalGroupSyncables : List GroupSyncable → Except String String

/-- A method call on `c.App`, with its arguments. -/
inductive Call where
  | License
  | SessionHasPermissionTo (session : Session) (permission : Permission)
  | CreateGroup (group : Group)
  | GetGroup (id : String)
  | GetGroupsPage (page perPage : Int)
  | UpdateGroup (group : Group)
  | DeleteGroup (id : String)
  | CreateGroupMember (groupID userID : String)
  | DeleteGroupMember (groupID userID : String)
  | CreateGroupSyncable (groupSyncable : GroupSyncable)
  | GetGroupSyncable (groupID syncableID : String) (syncableType : GroupSyncableType)
  | GetGroupSyncablesPage (groupID : String) (syncableType : GroupSyncableType)
      (page perPage : Int)
  | UpdateGroupSyncable (groupSyncable : GroupSyncable)
  | DeleteGroupSyncable (groupID syncableID : String) (syncableType : GroupSyncableType)
  deriving DecidableEq

/-- Whether a call is one of the twelve fetch/create/update/delete operations, as opposed
to the license and permission introspection. -/
def Call.isOperation : Call → Bool
  | .License => false
  | .SessionHasPermissionTo _ _ => false
  | _ => true

/-- What a handler leaves behind: the error slot `c.Err`, the calls made on `c.App` in
order, the status given to `w.WriteHeader` and the chunks given to `w.Write`. -/
structure State where
  Err : Option AppError
  calls : List Call
  header : Option Nat
  written : List String
  deriving DecidableEq

/-- The state a handler starts in: no error, no call, nothing written. -/
def State.init : State := ⟨none, [], none, []⟩

/-- Record a call on `c.App`. -/
def State.call (c : State) (k : Call) : State := { c with calls := c.calls ++ [k] }

/-- The assignment `c.Err = err`. -/
def State.setErr (c : State) (err : AppError) : State := { c with Err := some err }

/-- The call `w.WriteHeader(status)`. -/
def State.WriteHeader (c : State) (status : Nat) : State := { c with header := some status }

/-- The call `w.Write(b)`. -/
def State.Write (c : State) (b : String) : State := { c with written := c.written ++ [b] }

/-- The operations (fetch/create/update/delete) among the calls made. -/
def State.operations (c : State) : List Call := c.calls.filter Call.isOperation

/-! ## Context helpers (declared outside `group.go`) -/

/-- Modelled from the spec: `c.SetInvalidParam(parameter)` is not in the source file; it
sets the terminal error to the invalid-parameter condition naming the parameter
(sections 4.1, 4.3 and 7). -/
def State.SetInvalidParam (c : State) (parameter : String) : State :=
  c.setErr (.invalidParam parameter)

/-- Modelled from the spec: `c.SetPermissionError(permission)` is not in the source file;
it sets the terminal error to the permission-denied condition naming the required
permission (section 4.2). -/
def State.SetPermissionError (c : State) (permission : Permission) : State :=
  c.setErr (.permissionDenied permission.Id)

/-- Modelled from the spec: the identifier shape of section 4.1, a non-empty
alphanumeric token (the route patterns of `InitGroup` are `[A-Za-z0-9]+`). -/
def isValidId (s : String) : Bool := !s.data.isEmpty && s.data.all Char.isAlphanum

/-- Modelled from the spec: `c.RequireGroupId()` is not in the source file; section 4.1:
the extraction fails with an invalid-parameter condition naming the parameter when the
path segment is absent or not an alphanumeric token, and has no other effect. -/
def RequireGroupId (p : Params) (c : State) : State :=
  if isValidId p.GroupId then c else c.SetInvalidParam "group_id"

/-- Modelled from the spec: `c.RequireUserId()`, as `RequireGroupId` for the user id. -/
def RequireUserId (p : Params) (c : State) : State :=
  if isValidId p.UserId then c else c.SetInvalidParam "user_id"

/-- Modelled from the spec: `c.RequireTeamId()`, as `RequireGroupId` for the team id. -/
def RequireTeamId (p : Params) (c : State) : State :=
  if isValidId p.TeamId then c else c.SetInvalidParam "team_id"

/-- Modelled from the spec: `c.RequireChannelId()`, as `RequireGroupId` for the channel
id. -/
def RequireChannelId (p : Params) (c : State) : State :=
  if isValidId p.ChannelId then c else c.SetInvalidParam "channel_id"

/-- Modelled from the spec: `ReturnStatusOK(w)` is not in the source file; section 4.4:
the answer of delete group is a status only, written as a status-OK body. -/
def ReturnStatusOK (c : State) : State := c.Write "\x7b\"status\":\"OK\"\x7d"

/-- The condition `c.App.License() == nil || !*c.App.License().Features.LDAP`. -/
def licenseUnavailable (app : App) : Bool :=
  match app.License with
  | none => true
  | some l => !l.Features.LDAP

/-- The calls of `c.App.License()` made while evaluating `licenseUnavailable`: one when
the license is nil (the `||` short-circuits), two otherwise. -/
def licenseCalls (app : App) (c : State) : State :=
  match app.License with
  | none => c.call .License
  | some _ => (c.call .License).call .License

/-- The parameter name `fmt.Sprintf("[%s]_id", strings.Join(model.GroupSyncableTypes, "|"))`. -/
def syncableIdParam : String := "[" ++ String.intercalate "|" GroupSyncableTypes ++ "]_id"

/-- The parameter name `fmt.Sprintf("Group[%s]", strings.Join(model.GroupSyncableTypes, "|"))`. -/
def groupSyncableParam : String := "Group[" ++ String.intercalate "|" GroupSyncableTypes ++ "]"

/-- The parameter name
`fmt.Sprintf("Group[%s]Patch", strings.Join(model.GroupSyncableTypes, "|"))`. -/
def groupSyncablePatchParam : String :=
  "Group[" ++ String.intercalate "|" GroupSyncableTypes ++ "]Patch"

/-! ## The handlers of `group.go` -/

/-- The handler `createGroup` (lines 44-81). -/
def createGroup (app : App) (codec : Codec) (r : Request) : State :=
  let c := RequireGroupId r.Params State.init
  if c.Err.isSome then c else
  match codec.GroupFromJson r.Body with
  | none => c.SetInvalidParam "group"
  | some group =>
    let c := licenseCalls app c
    if licenseUnavailable app then
      c.setErr (NewAppError "Api4.createGroup" "api.group.license.error" "" StatusNotImplemented)
    else
    let c := c.call (.SessionHasPermissionTo r.Session PERMISSION_MANAGE_SYSTEM)
    if !app.SessionHasPermissionTo r.Session PERMISSION_MANAGE_SYSTEM then
      c.SetPermissionError PERMISSION_MANAGE_SYSTEM
    else
    let c := c.call (.CreateGroup group)
    match app.CreateGroup group with
    | .error err => c.setErr err
    | .ok group =>
      let c := c.WriteHeader StatusCreated
      match codec.MarshalGroup group with
      | .error marshalErr =>
        c.setErr (NewAppError "Api4.createGroup" "api.group.marshal_error" marshalErr
          StatusNotImplemented)
      | .ok b => c.Write b

/-- The handler `getGroup` (lines 83-107). -/
def getGroup (app : App) (codec : Codec) (r : Request) : State :=
  let c := RequireGroupId r.Params State.init
  if c.Err.isSome then c else
  let c := c.call (.SessionHasPermissionTo r.Session PERMISSION_MANAGE_SYSTEM)
  if !app.SessionHasPermissionTo r.Session PERMISSION_MANAGE_SYSTEM then
    c.SetPermissionError PERMISSION_MANAGE_SYSTEM
  else
  let c := c.call (.GetGroup r.Params.GroupId)
  match app.GetGroup r.Params.GroupId with
  | .error err => c.setErr err
  | .ok group =>
    match codec.MarshalGroup group with
    | .error marshalErr =>
      c.setErr (NewAppError "Api4.getGroup" "api.group.marshal_error" marshalErr
        StatusNotImplemented)
    | .ok b => c.Write b

/-- The handler `getGroups` (lines 109-128). -/
def getGroups (app : App) (codec : Codec) (r : Request) : State :=
  let c := State.init
  let c := c.call (.SessionHasPermissionTo r.Session PERMISSION_MANAGE_SYSTEM)
  if !app.SessionHasPermissionTo r.Session PERMISSION_MANAGE_SYSTEM then
    c.SetPermissionError PERMISSION_MANAGE_SYSTEM
  else
  let c := c.call (.GetGroupsPage r.Params.Page r.Params.PerPage)
  match app.GetGroupsPage r.Params.Page r.Params.PerPage with
  | .error err => c.setErr err
  | .ok groups =>
    match codec.MarshalGroups groups with
    | .error marshalErr =>
      c.setErr (NewAppError "Api4.getGroups" "api.group.marshal_error" marshalErr
        StatusNotImplemented)
    | .ok b => c.Write b

/-- The handler `updateGroup` (lines 130-167). -/
def updateGroup (app : App) (codec : Codec) (r : Request) : State :=
  let c := RequireGroupId r.Params State.init
  if c.Err.isSome then c else
  match codec.GroupFromJson r.Body with
  | none => c.SetInvalidParam "group"
  | some update =>
    let c := licenseCalls app c
    if licenseUnavailable app then
      c.setErr (NewAppError "Api4.updateGroup" "api.group.license.error" "" StatusNotImplemented)
    else
    let c := c.call (.SessionHasPermissionTo r.Session PERMISSION_MANAGE_SYSTEM)
    if !app.SessionHasPermissionTo r.Session PERMISSION_MANAGE_SYSTEM then
      c.SetPermissionError PERMISSION_MANAGE_SYSTEM
    else
    let update := { update with Id := r.Params.GroupId }
    let c := c.call (.UpdateGroup update)
    match app.UpdateGroup update with
    | .error err => c.setErr err
    | .ok group =>
      match codec.MarshalGroup group with
      | .error marshalErr =>
        c.setErr (NewAppError "Api4.updateGroup" "api.group.marshal_error" marshalErr
          StatusNotImplemented)
      | .ok b => c.Write b

/-- The handler `deleteGroup` (lines 169-191). -/
def deleteGroup (app : App) (r : Request) : State :=
  let c := RequireGroupId r.Params State.init
  if c.Err.isSome then c else
  let c := licenseCalls app c
  if licenseUnavailable app then
    c.setErr (NewAppError "Api4.deleteGroup" "api.group.license.error" "" StatusNotImplemented)
  else
  let c := c.call (.SessionHasPermissionTo r.Session PERMISSION_MANAGE_SYSTEM)
  if !app.SessionHasPermissionTo r.Session PERMISSION_MANAGE_SYSTEM then
    c.SetPermissionError PERMISSION_MANAGE_SYSTEM
  else
  let c := c.call (.DeleteGroup r.Params.GroupId)
  match app.DeleteGroup r.Params.GroupId with
  | .error err => c.setErr err
  | .ok _ => ReturnStatusOK c

/-- The handler `createOrDeleteGroupMember(action)` (lines 193-244). -/
def createOrDeleteGroupMember (action : Int) (app : App) (codec : Codec) (r : Request) :
    State :=
  let c := RequireGroupId r.Params State.init
  if c.Err.isSome then c else
  let c := RequireUserId r.Params c
  if c.Err.isSome then c else
  let c := licenseCalls app c
  if licenseUnavailable app then
    c.setErr (NewAppError "Api4.createOrDeleteGroupMember" "api.group.license.error" ""
      StatusNotImplemented)
  else
  let c := c.call (.SessionHasPermissionTo r.Session PERMISSION_MANAGE_SYSTEM)
  if !app.SessionHasPermissionTo r.Session PERMISSION_MANAGE_SYSTEM then
    c.SetPermissionError PERMISSION_MANAGE_SYSTEM
  else
  -- the `switch action`: the service method, the call it is traced as, the success status
  let selected : Option ((String → String → Except AppError GroupMember) ×
      (String → String → Call) × Nat) :=
    if action = apiGroupMemberActionCreate then
      some (app.CreateGroupMember, Call.CreateGroupMember, StatusCreated)
    else if action = apiGroupMemberActionDelete then
      some (app.DeleteGroupMember, Call.DeleteGroupMember, StatusOK)
    else none
  match selected with
  | none => c
  | some (createOrDeleteF, traced, successStatus) =>
    let c := c.call (traced r.Params.GroupId r.Params.UserId)
    match createOrDeleteF r.Params.GroupId r.Params.UserId with
    | .error err => c.setErr err
    | .ok groupMember =>
      let c := c.WriteHeader successStatus
      match codec.MarshalGroupMember groupMember with
      | .error marshalErr =>
        c.setErr (NewAppError "Api4.createOrDeleteGroupMember" "api.group.marshal_error"
          marshalErr StatusNotImplemented)
      | .ok b => c.Write b

/-- The handler `createGroupSyncable(syncableType)` (lines 246-293).  A read error of the
body is stored in `c.Err` and the handler goes on (line 254 has no `return`). -/
def createGroupSyncable (syncableType : GroupSyncableType) (app : App) (codec : Codec)
    (r : Request) : State :=
  let c := RequireGroupId r.Params State.init
  if c.Err.isSome then c else
  let c := match r.Body.readErr with
    | some err =>
      c.setErr (NewAppError "Api4.createGroupSyncable" "api.group.io_error" err
        StatusNotImplemented)
    | none => c
  match codec.UnmarshalGroupSyncable r.Body.data with
  | .error _ => c.SetInvalidParam groupSyncableParam
  | .ok none => c.SetInvalidParam groupSyncableParam
  | .ok (some groupSyncable) =>
    if groupSyncable.Type_ ≠ syncableType then c.SetInvalidParam groupSyncableParam else
    let c := licenseCalls app c
    if licenseUnavailable app then
      c.setErr (NewAppError "Api4.createGroupSyncable" "api.group.license.error" ""
        StatusNotImplemented)
    else
    let c := c.call (.SessionHasPermissionTo r.Session PERMISSION_MANAGE_SYSTEM)
    if !app.SessionHasPermissionTo r.Session PERMISSION_MANAGE_SYSTEM then
      c.SetPermissionError PERMISSION_MANAGE_SYSTEM
    else
    let c := c.call (.CreateGroupSyncable groupSyncable)
    match app.CreateGroupSyncable groupSyncable with
    | .error appErr => c.setErr appErr
    | .ok groupSyncable =>
      let c := c.WriteHeader StatusCreated
      match codec.MarshalGroupSyncable groupSyncable with
      | .error marshalErr =>
        c.setErr (NewAppError "Api4.createGroupSyncable" "api.group.marshal_error" marshalErr
          StatusNotImplemented)
      | .ok b => c.Write b

/-- The `switch syncableType` that `getGroupSyncable` (lines 302-318), `updateGroupSyncable`
(lines 376-392) and `deleteGroupSyncable` (lines 448-464) each contain.  The result is the
state after the switch, the value of `syncableID` (a Go string, empty until assigned) and
whether the handler returned inside the switch.  The `default` case sets the
invalid-parameter error and does not return. -/
def resolveSyncableID (syncableType : GroupSyncableType) (p : Params) (c : State) :
    State × String × Bool :=
  match syncableType with
  | .GSTeam =>
    let c := RequireTeamId p c
    if c.Err.isSome then (c, "", true) else (c, p.TeamId, false)
  | .GSChannel =>
    let c := RequireChannelId p c
    if c.Err.isSome then (c, "", true) else (c, p.ChannelId, false)
  | .unrecognized _ => (c.SetInvalidParam syncableIdParam, "", false)

/-- The handler `getGroupSyncable(syncableType)` (lines 295-339). -/
def getGroupSyncable (syncableType : GroupSyncableType) (app : App) (codec : Codec)
    (r : Request) : State :=
  let c := RequireGroupId r.Params State.init
  if c.Err.isSome then c else
  let sw := resolveSyncableID syncableType r.Params c
  let c := sw.1
  let syncableID := sw.2.1
  if sw.2.2 then c else
  let c := c.call (.SessionHasPermissionTo r.Session PERMISSION_MANAGE_SYSTEM)
  if !app.SessionHasPermissionTo r.Session PERMISSION_MANAGE_SYSTEM then
    c.SetPermissionError PERMISSION_MANAGE_SYSTEM
  else
  let c := c.call (.GetGroupSyncable r.Params.GroupId syncableID syncableType)
  match app.GetGroupSyncable r.Params.GroupId syncableID syncableType with
  | .error err => c.setErr err
  | .ok groupSyncable =>
    match codec.MarshalGroupSyncable groupSyncable with
    | .error marshalErr =>
      c.setErr (NewAppError "Api4.getGroupSyncable" "api.group.marshal_error" marshalErr
        StatusNotImplemented)
    | .ok b => c.Write b

/-- The handler `getGroupSyncables(syncableType)` (lines 341-367). -/
def getGroupSyncables (syncableType : GroupSyncableType) (app : App) (codec : Codec)
    (r : Request) : State :=
  let c := RequireGroupId r.Params State.init
  if c.Err.isSome then c else
  let c := c.call (.SessionHasPermissionTo r.Session PERMISSION_MANAGE_SYSTEM)
  if !app.SessionHasPermissionTo r.Session PERMISSION_MANAGE_SYSTEM then
    c.SetPermissionError PERMISSION_MANAGE_SYSTEM
  else
  let c := c.call
    (.GetGroupSyncablesPage r.Params.GroupId syncableType r.Params.Page r.Params.PerPage)
  match app.GetGroupSyncablesPage r.Params.GroupId syncableType r.Params.Page
      r.Params.PerPage with
  | .error err => c.setErr err
  | .ok groupSyncables =>
    match codec.MarshalGroupSyncables groupSyncables with
    | .error marshalErr =>
      c.setErr (NewAppError "Api4.getGroupSyncables" "api.group.marshal_error" marshalErr
        StatusNotImplemented)
    | .ok b => c.Write b

/-- The handler `updateGroupSyncable(syncableType)` (lines 369-439). -/
def updateGroupSyncable (syncableType : GroupSyncableType) (app : App) (codec : Codec)
    (r : Request) : State :=
  let c := RequireGroupId r.Params State.init
  if c.Err.isSome then c else
  let sw := resolveSyncableID syncableType r.Params c
  let c := sw.1
  let syncableID := sw.2.1
  if sw.2.2 then c else
  let c := match r.Body.readErr with
    | some err =>
      c.setErr (NewAppError "Api4.updateGroupSyncable" "api.group.io_error" err
        StatusNotImplemented)
    | none => c
  match codec.UnmarshalGroupSyncablePatch r.Body.data with
  | .error _ => c.SetInvalidParam groupSyncablePatchParam
  | .ok none => c.SetInvalidParam groupSyncablePatchParam
  | .ok (some groupSyncablePatch) =>
    let c := licenseCalls app c
    if licenseUnavailable app then
      c.setErr (NewAppError "Api4.updateGroupSyncable" "api.group.license.error" ""
        StatusNotImplemented)
    else
    let c := c.call (.SessionHasPermissionTo r.Session PERMISSION_MANAGE_SYSTEM)
    if !app.SessionHasPermissionTo r.Session PERMISSION_MANAGE_SYSTEM then
      c.SetPermissionError PERMISSION_MANAGE_SYSTEM
    else
    let arg : GroupSyncable :=
      { GroupId := r.Params.GroupId
        SyncableId := syncableID
        AutoAdd := groupSyncablePatch.AutoAdd
        CanLeave := groupSyncablePatch.CanLeave
        Type_ := syncableType }
    let c := c.call (.UpdateGroupSyncable arg)
    match app.UpdateGroupSyncable arg with
    | .error appErr => c.setErr appErr
    | .ok groupSyncable =>
      match codec.MarshalGroupSyncable groupSyncable with
      | .error marshalErr =>
        c.setErr (NewAppError "Api4.updateGroupSyncable" "api.group.marshal_error" marshalErr
          StatusNotImplemented)
      | .ok b => c.Write b

/-- The handler `deleteGroupSyncable(syncableType)` (lines 441-490). -/
def deleteGroupSyncable (syncableType : GroupSyncableType) (app : App) (codec : Codec)
    (r : Request) : State :=
  let c := RequireGroupId r.Params State.init
  if c.Err.isSome then c else
  let sw := resolveSyncableID syncableType r.Params c
  let c := sw.1
  let syncableID := sw.2.1
  if sw.2.2 then c else
  let c := licenseCalls app c
  if licenseUnavailable app then
    c.setErr (NewAppError "Api4.deleteGroupSyncable" "api.group.license.error" ""
      StatusNotImplemented)
  else
  let c := c.call (.SessionHasPermissionTo r.Session PERMISSION_MANAGE_SYSTEM)
  if !app.SessionHasPermissionTo r.Session PERMISSION_MANAGE_SYSTEM then
    c.SetPermissionError PERMISSION_MANAGE_SYSTEM
  else
  let c := c.call (.DeleteGroupSyncable r.Params.GroupId syncableID syncableType)
  match app.DeleteGroupSyncable r.Params.GroupId syncableID syncableType with
  | .error err => c.setErr err
  | .ok groupSyncable =>
    match codec.MarshalGroupSyncable groupSyncable with
    | .error marshalErr =>
      c.setErr (NewAppError "Api4.deleteGroupSyncable" "api.group.marshal_error" marshalErr
        StatusNotImplemented)
    | .ok b => c.Write b

/-! ## Concrete inputs -/

/-- An application whose operations all succeed and echo their arguments, with the given
license and permission answer. -/
def echoApp (license : Option License) (permitted : Bool) : App where
  License := license
  SessionHasPermissionTo := fun _ _ => permitted
  CreateGroup := fun g => .ok g
  GetGroup := fun id => .ok ⟨id, "", "", 0, 0, 0⟩
  GetGroupsPage := fun _ _ => .ok []
  UpdateGroup := fun g => .ok g
  DeleteGroup := fun id => .ok ⟨id, "", "", 0, 0, 0⟩
  CreateGroupMember := fun g u => .ok ⟨g, u, 0, 0⟩
  DeleteGroupMember := fun g u => .ok ⟨g, u, 0, 0⟩
  CreateGroupSyncable := fun s => .ok s
  GetGroupSyncable := fun g s t => .ok ⟨g, s, false, false, t⟩
  GetGroupSyncablesPage := fun _ _ _ _ => .ok []
  UpdateGroupSyncable := fun s => .ok s
  DeleteGroupSyncable := fun g s t => .ok ⟨g, s, false, false, t⟩

/-- A license with the LDAP feature switched on. -/
def ldapLicense : License := ⟨⟨true⟩⟩

/-- A codec for the concrete inputs: the body `"group"` decodes to a group, `"team"` and
`"channel"` to a syncable of that type bound to group `g2`, `"patch"` to a patch, `"null"`
to a nil pointer, anything else fails; every value is encoded to a fixed text. -/
def demoCodec : Codec where
  GroupFromJson := fun b =>
    if b.data = "group" then some ⟨"", "Engineering", "cn=eng", 0, 0, 0⟩ else none
  UnmarshalGroupSyncable := fun b =>
    if b = "team" then .ok (some ⟨"g2", "t9", true, false, .GSTeam⟩)
    else if b = "channel" then .ok (some ⟨"g2", "c9", true, false, .GSChannel⟩)
    else if b = "null" then .ok none
    else .error "invalid character"
  UnmarshalGroupSyncablePatch := fun b =>
    if b = "patch" then .ok (some ⟨true, false⟩)
    else if b = "null" then .ok none
    else .error "invalid character"
  MarshalGroup := fun g => .ok ("group:" ++ g.Id)
  MarshalGroups := fun _ => .ok "groups"
  MarshalGroupMember := fun m => .ok ("member:" ++ m.GroupId ++ ":" ++ m.UserId)
  MarshalGroupSyncable := fun s => .ok ("syncable:" ++ s.GroupId ++ ":" ++ s.SyncableId)
  MarshalGroupSyncables := fun _ => .ok "syncables"

/-- A request with the given path segments and body text, read without error. -/
def demoRequest (groupId userId teamId channelId body : String) : Request :=
  ⟨⟨"s1", "admin"⟩, ⟨groupId, userId, teamId, channelId, 0, 10⟩, ⟨body, none⟩⟩

/-! ## Predicates used in the statements -/

/-- The handler ended with the terminal error `e` without calling any
fetch/create/update/delete operation of the application and without writing a status or
a body. -/
def State.stoppedWith (c : State) (e : AppError) : Prop :=
  c.Err = some e ∧ c.operations = [] ∧ c.header = none ∧ c.written = []

/-- The path parameter the syncable type asks for is a valid id: the team id for
`GSTeam`, the channel id for `GSChannel`, none for another type. -/
def syncableIdValid (syncableType : GroupSyncableType) (p : Params) : Prop :=
  (syncableType = .GSTeam → isValidId p.TeamId = true) ∧
  (syncableType = .GSChannel → isValidId p.ChannelId = true)

/-- The path parameter that holds the syncable id of a team or channel syncable. -/
def pathSyncableId (syncableType : GroupSyncableType) (p : Params) : String :=
  if syncableType = .GSTeam then p.TeamId else p.ChannelId

/-! ## Auxiliary facts -/

theorem licenseUnavailable_of_absent_or_off (app : App)
    (h : app.License = none ∨ ∃ l, app.License = some l ∧ l.Features.LDAP = false) :
    licenseUnavailable app = true := by
  rcases h with h | ⟨l, h, hl⟩
  · simp [licenseUnavailable, h]
  · simp [licenseUnavailable, h, hl]

theorem licenseUnavailable_of_enabled (app : App)
    (h : ∃ l, app.License = some l ∧ l.Features.LDAP = true) :
    licenseUnavailable app = false := by
  obtain ⟨l, h, hl⟩ := h
  simp [licenseUnavailable, h, hl]

theorem licenseCalls_eq (app : App) (c : State) :
    licenseCalls app c = { c with calls := c.calls ++ (licenseCalls app State.init).calls } := by
  cases h : app.License <;> simp [licenseCalls, h, State.call, State.init]

theorem licenseCalls_operations (app : App) :
    (licenseCalls app State.init).calls.filter Call.isOperation = [] := by
  cases h : app.License <;> simp [licenseCalls, h, State.call, State.init, Call.isOperation]

theorem resolveSyncableID_valid (T : GroupSyncableType) (p : Params) (c : State)
    (hc : c.Err = none) (hT : T = .GSTeam ∨ T = .GSChannel) (hid : syncableIdValid T p) :
    resolveSyncableID T p c = (c, pathSyncableId T p, false) := by
  rcases hT with rfl | rfl
  · simp [resolveSyncableID, RequireTeamId, hid.1 rfl, hc, pathSyncableId]
  · simp [resolveSyncableID, RequireChannelId, hid.2 rfl, hc, pathSyncableId]

theorem resolveSyncableID_no_return (T : GroupSyncableType) (p : Params) (c : State)
    (hc : c.Err = none) (hid : syncableIdValid T p) :
    (resolveSyncableID T p c).2.2 = false ∧
    (resolveSyncableID T p c).1.calls = c.calls ∧
    (resolveSyncableID T p c).1.header = c.header ∧
    (resolveSyncableID T p c).1.written = c.written := by
  cases T with
  | GSTeam => simp [resolveSyncableID, RequireTeamId, hid.1 rfl, hc]
  | GSChannel => simp [resolveSyncableID, RequireChannelId, hid.2 rfl, hc]
  | unrecognized n => simp [resolveSyncableID, State.SetInvalidParam, State.setErr]

theorem stoppedWith_license (app : App) (c : State) (e : AppError)
    (hc : c.operations = []) (hh : c.header = none) (hw : c.written = []) :
    ((licenseCalls app c).setErr e).stoppedWith e := by
  rw [licenseCalls_eq]
  simp only [State.operations] at hc
  simp [State.stoppedWith, State.setErr, State.operations, List.filter_append, hc, hh, hw,
    licenseCalls_operations]

theorem stoppedWith_permission (c : State) (s : Session)
    (hc : c.operations = []) (hh : c.header = none) (hw : c.written = []) :
    ((c.call (.SessionHasPermissionTo s PERMISSION_MANAGE_SYSTEM)).SetPermissionError
      PERMISSION_MANAGE_SYSTEM).stoppedWith (.permissionDenied PERMISSION_MANAGE_SYSTEM.Id) := by
  simp only [State.operations] at hc
  simp [State.stoppedWith, State.SetPermissionError, State.setErr, State.call, State.operations,
    List.filter_append, hc, hh, hw, Call.isOperation]

theorem licenseCalls_preserves (app : App) (c : State)
    (hc : c.operations = []) (hh : c.header = none) (hw : c.written = []) :
    (licenseCalls app c).operations = [] ∧ (licenseCalls app c).header = none ∧
      (licenseCalls app c).written = [] := by
  rw [licenseCalls_eq]
  simp only [State.operations] at hc
  simp [State.operations, List.filter_append, hc, hh, hw, licenseCalls_operations]

/-- With a valid group id, a body that does not decode to a syncable of the expected type
ends `createGroupSyncable` at line 261-262, before any call. -/
theorem createGroupSyncable_invalid_body (T : GroupSyncableType) (app : App) (codec : Codec)
    (r : Request) (hg : isValidId r.Params.GroupId = true)
    (hbody : ∀ s, codec.UnmarshalGroupSyncable r.Body.data = .ok (some s) → s.Type_ ≠ T) :
    createGroupSyncable T app codec r =
      ⟨some (.invalidParam groupSyncableParam), [], none, []⟩ := by
  unfold createGroupSyncable
  simp only [RequireGroupId, hg, if_true, State.init, Option.isSome_none, Bool.false_eq_true,
    if_false]
  cases hu : codec.UnmarshalGroupSyncable r.Body.data with
  | error e => cases r.Body.readErr <;> simp [State.SetInvalidParam, State.setErr]
  | ok o =>
    cases o with
    | none => cases r.Body.readErr <;> simp [State.SetInvalidParam, State.setErr]
    | some s =>
      have hne := hbody s hu
      cases r.Body.readErr <;> simp [State.SetInvalidParam, State.setErr, hne]

/-- The operations `updateGroupSyncable` performs once the path, the body and the guard
are in order: the one update, built from the path ids, the type and the patch flags. -/
theorem updateGroupSyncable_operations (T : GroupSyncableType) (app : App) (codec : Codec)
    (r : Request) (p : GroupSyncablePatch)
    (hT : T = .GSTeam ∨ T = .GSChannel)
    (hg : isValidId r.Params.GroupId = true) (hid : syncableIdValid T r.Params)
    (hbody : codec.UnmarshalGroupSyncablePatch r.Body.data = .ok (some p))
    (hlic : licenseUnavailable app = false)
    (hperm : app.SessionHasPermissionTo r.Session PERMISSION_MANAGE_SYSTEM = true) :
    (updateGroupSyncable T app codec r).operations =
      [.UpdateGroupSyncable
        { GroupId := r.Params.GroupId, SyncableId := pathSyncableId T r.Params,
          AutoAdd := p.AutoAdd, CanLeave := p.CanLeave, Type_ := T }] := by
  have hsw := resolveSyncableID_valid T r.Params ⟨none, [], none, []⟩ rfl hT hid
  unfold updateGroupSyncable
  simp only [RequireGroupId, hg, if_true, State.init, Option.isSome_none, Bool.false_eq_true,
    if_false, hsw, hbody, hlic, hperm]
  cases hl : app.License with
  | none => simp [licenseUnavailable, hl] at hlic
  | some l =>
    cases r.Body.readErr <;> cases app.UpdateGroupSyncable _ <;>
      simp [licenseCalls, hl, State.call, State.setErr, State.operations, Call.isOperation] <;>
      split <;> simp [Call.isOperation, State.Write]

/-- On the route `POST /groups` the group id is absent, and `createGroup` stops at its
first statement whatever the rest of the request, the application and the codec are. -/
theorem createGroup_absent_group_id (app : App) (codec : Codec) (session : Session)
    (userId teamId channelId : String) (page perPage : Int) (body : Body) :
    createGroup app codec ⟨session, ⟨"", userId, teamId, channelId, page, perPage⟩, body⟩ =
      ⟨some (.invalidParam "group_id"), [], none, []⟩ := by
  simp [createGroup, RequireGroupId, isValidId, State.init, State.SetInvalidParam,
    State.setErr]

/-! ## The claims -/

/-- C1: for `createGroupSyncable(T)` (in particular `T` Team or Channel) and every request
with a valid group id, if the body does not decode, decodes to nil, or decodes to a
syncable whose `Type` differs from `T`, the handler ends with the invalid-parameter error
`Group[Team|Channel]`, makes no call on the application at all and writes nothing,
whatever the license and the permission are. -/
theorem createGroupSyncable_rejects_mismatched_body (T : GroupSyncableType) (app : App)
    (codec : Codec) (r : Request) (hg : isValidId r.Params.GroupId = true)
    (hbody : ∀ s, codec.UnmarshalGroupSyncable r.Body.data = .ok (some s) → s.Type_ ≠ T) :
    createGroupSyncable T app codec r =
        ⟨some (.invalidParam groupSyncableParam), [], none, []⟩ ∧
      groupSyncableParam = "Group[Team|Channel]" :=
  ⟨createGroupSyncable_invalid_body T app codec r hg hbody, by decide⟩

/-- C1 at concrete requests: a channel-typed body posted to the team endpoint with license
and permission, and a `null` body posted to the channel endpoint without either. -/
theorem createGroupSyncable_rejects_mismatched_body_witness :
    createGroupSyncable .GSTeam (echoApp (some ldapLicense) true) demoCodec
        (demoRequest "g1" "" "" "" "channel") =
      ⟨some (.invalidParam "Group[Team|Channel]"), [], none, []⟩ ∧
    createGroupSyncable .GSChannel (echoApp none false) demoCodec
        (demoRequest "g1" "" "" "" "null") =
      ⟨some (.invalidParam "Group[Team|Channel]"), [], none, []⟩ :=
  ⟨(createGroupSyncable_rejects_mismatched_body .GSTeam (echoApp (some ldapLicense) true)
      demoCodec (demoRequest "g1" "" "" "" "channel") (by decide)
      (fun s h => by
        have hs : s = ⟨"g2", "c9", true, false, .GSChannel⟩ := by
          simpa [demoCodec, demoRequest] using h.symm
        simp [hs])).1,
   (createGroupSyncable_rejects_mismatched_body .GSChannel (echoApp none false)
      demoCodec (demoRequest "g1" "" "" "" "null") (by decide)
      (fun s h => by simp [demoCodec, demoRequest] at h)).1⟩

/-- C2: for `updateGroupSyncable(T)` with `T` Team or Channel, a valid group id and a valid
team/channel id, a body that decodes to a patch `p`, the license enabled and the
permission held, the only operation called is `UpdateGroupSyncable`, on the syncable whose
`GroupId` is the path group id, whose `SyncableId` is the path team id (Team) or channel id
(Channel), whose `Type` is `T` and whose flags are those of `p`; any other body (and codec)
that decodes to a patch with the same two flags leads to the same call. -/
theorem updateGroupSyncable_identity_from_path (T : GroupSyncableType) (app : App)
    (codec : Codec) (r : Request) (p : GroupSyncablePatch)
    (hT : T = .GSTeam ∨ T = .GSChannel)
    (hg : isValidId r.Params.GroupId = true) (hid : syncableIdValid T r.Params)
    (hbody : codec.UnmarshalGroupSyncablePatch r.Body.data = .ok (some p))
    (hlic : ∃ l, app.License = some l ∧ l.Features.LDAP = true)
    (hperm : app.SessionHasPermissionTo r.Session PERMISSION_MANAGE_SYSTEM = true) :
    (updateGroupSyncable T app codec r).operations =
        [.UpdateGroupSyncable
          { GroupId := r.Params.GroupId, SyncableId := pathSyncableId T r.Params,
            AutoAdd := p.AutoAdd, CanLeave := p.CanLeave, Type_ := T }] ∧
    ∀ (codec2 : Codec) (body2 : Body) (p2 : GroupSyncablePatch),
      codec2.UnmarshalGroupSyncablePatch body2.data = .ok (some p2) →
      p2.AutoAdd = p.AutoAdd → p2.CanLeave = p.CanLeave →
      (updateGroupSyncable T app codec2 { r with Body := body2 }).operations =
        (updateGroupSyncable T app codec r).operations := by
  have hl := licenseUnavailable_of_enabled app hlic
  refine ⟨updateGroupSyncable_operations T app codec r p hT hg hid hbody hl hperm, ?_⟩
  intro codec2 body2 p2 h2 ha hc
  rw [updateGroupSyncable_operations T app codec r p hT hg hid hbody hl hperm,
    updateGroupSyncable_operations T app codec2 { r with Body := body2 } p2 hT hg hid h2 hl
      hperm, ha, hc]

/-- C2 at `PUT /groups/g1/teams/t1` and `PUT /groups/g1/channels/c1` with a patch body. -/
theorem updateGroupSyncable_identity_from_path_witness :
    (updateGroupSyncable .GSTeam (echoApp (some ldapLicense) true) demoCodec
        (demoRequest "g1" "" "t1" "c1" "patch")).operations =
      [.UpdateGroupSyncable ⟨"g1", "t1", true, false, .GSTeam⟩] ∧
    (updateGroupSyncable .GSChannel (echoApp (some ldapLicense) true) demoCodec
        (demoRequest "g1" "" "t1" "c1" "patch")).operations =
      [.UpdateGroupSyncable ⟨"g1", "c1", true, false, .GSChannel⟩] :=
  ⟨(updateGroupSyncable_identity_from_path .GSTeam (echoApp (some ldapLicense) true) demoCodec
      (demoRequest "g1" "" "t1" "c1" "patch") ⟨true, false⟩ (Or.inl rfl) (by decide)
      ⟨fun _ => by decide, fun _ => by decide⟩ rfl ⟨ldapLicense, rfl, rfl⟩ rfl).1,
   (updateGroupSyncable_identity_from_path .GSChannel (echoApp (some ldapLicense) true)
      demoCodec (demoRequest "g1" "" "t1" "c1" "patch") ⟨true, false⟩ (Or.inr rfl) (by decide)
      ⟨fun _ => by decide, fun _ => by decide⟩ rfl ⟨ldapLicense, rfl, rfl⟩ rfl).1⟩

/-- C3: for each mutating handler (`createGroup`, `updateGroup`, `deleteGroup`,
`createOrDeleteGroupMember` for any action, `createGroupSyncable`, `updateGroupSyncable`,
`deleteGroupSyncable` for any type, in particular Team and Channel), every request whose
required path parameters are valid and whose body, where the handler reads one, decodes
(for `createGroupSyncable`: to a syncable of the endpoint's type), and every permission
state: if the license is absent or its LDAP flag is off, the handler ends with the error
`api.group.license.error` of status 501, calls no fetch/create/update/delete operation and
writes neither status nor body. -/
theorem mutating_handlers_require_license (app : App) (codec : Codec) (r : Request)
    (hlic : app.License = none ∨ ∃ l, app.License = some l ∧ l.Features.LDAP = false)
    (hg : isValidId r.Params.GroupId = true) :
    (∀ g, codec.GroupFromJson r.Body = some g →
      (createGroup app codec r).stoppedWith
        (.appError "Api4.createGroup" "api.group.license.error" "" 501)) ∧
    (∀ g, codec.GroupFromJson r.Body = some g →
      (updateGroup app codec r).stoppedWith
        (.appError "Api4.updateGroup" "api.group.license.error" "" 501)) ∧
    (deleteGroup app r).stoppedWith
      (.appError "Api4.deleteGroup" "api.group.license.error" "" 501) ∧
    (∀ action, isValidId r.Params.UserId = true →
      (createOrDeleteGroupMember action app codec r).stoppedWith
        (.appError "Api4.createOrDeleteGroupMember" "api.group.license.error" "" 501)) ∧
    (∀ T s, codec.UnmarshalGroupSyncable r.Body.data = .ok (some s) → s.Type_ = T →
      (createGroupSyncable T app codec r).stoppedWith
        (.appError "Api4.createGroupSyncable" "api.group.license.error" "" 501)) ∧
    (∀ T p, syncableIdValid T r.Params →
      codec.UnmarshalGroupSyncablePatch r.Body.data = .ok (some p) →
      (updateGroupSyncable T app codec r).stoppedWith
        (.appError "Api4.updateGroupSyncable" "api.group.license.error" "" 501)) ∧
    (∀ T, syncableIdValid T r.Params →
      (deleteGroupSyncable T app codec r).stoppedWith
        (.appError "Api4.deleteGroupSyncable" "api.group.license.error" "" 501)) := by
  have hu := licenseUnavailable_of_absent_or_off app hlic
  refine ⟨?_, ?_, ?_, ?_, ?_, ?_, ?_⟩
  · intro g hb
    simp only [createGroup, RequireGroupId, hg, if_true, State.init, Option.isSome_none,
      Bool.false_eq_true, if_false, hb, hu]
    exact stoppedWith_license app _ _ rfl rfl rfl
  · intro g hb
    simp only [updateGroup, RequireGroupId, hg, if_true, State.init, Option.isSome_none,
      Bool.false_eq_true, if_false, hb, hu]
    exact stoppedWith_license app _ _ rfl rfl rfl
  · simp only [deleteGroup, RequireGroupId, hg, if_true, State.init, Option.isSome_none,
      Bool.false_eq_true, if_false, hu]
    exact stoppedWith_license app _ _ rfl rfl rfl
  · intro action huid
    simp only [createOrDeleteGroupMember, RequireGroupId, RequireUserId, hg, huid, if_true,
      State.init, Option.isSome_none, Bool.false_eq_true, if_false, hu]
    exact stoppedWith_license app _ _ rfl rfl rfl
  · intro T s hb hT
    simp only [createGroupSyncable, RequireGroupId, hg, if_true, State.init, Option.isSome_none,
      Bool.false_eq_true, if_false, hb, hT, hu, ne_eq, not_true_eq_false]
    cases r.Body.readErr <;> exact stoppedWith_license app _ _ rfl rfl rfl
  · intro T p hid hb
    obtain ⟨h1, h2, h3, h4⟩ := resolveSyncableID_no_return T r.Params ⟨none, [], none, []⟩ rfl hid
    simp only [updateGroupSyncable, RequireGroupId, hg, if_true, State.init, Option.isSome_none,
      Bool.false_eq_true, if_false, hb, hu, h1]
    cases r.Body.readErr <;>
      exact stoppedWith_license app _ _ (by simp [State.operations, State.setErr, h2]) (by simp [State.setErr, h3]) (by simp [State.setErr, h4])
  · intro T hid
    obtain ⟨h1, h2, h3, h4⟩ := resolveSyncableID_no_return T r.Params ⟨none, [], none, []⟩ rfl hid
    simp only [deleteGroupSyncable, RequireGroupId, hg, if_true, State.init, Option.isSome_none,
      Bool.false_eq_true, if_false, hu, h1]
    exact stoppedWith_license app _ _ (by simp [State.operations, h2]) h3 h4

/-- C3 at concrete requests: no license at all, and a license with the LDAP flag off, the
caller holding the permission. -/
theorem mutating_handlers_require_license_witness :
    (createGroup (echoApp none true) demoCodec (demoRequest "g1" "u1" "t1" "c1" "group")).Err =
      some (.appError "Api4.createGroup" "api.group.license.error" "" 501) ∧
    (deleteGroup (echoApp none true) (demoRequest "g1" "u1" "t1" "c1" "group")).stoppedWith
      (.appError "Api4.deleteGroup" "api.group.license.error" "" 501) ∧
    (deleteGroupSyncable .GSTeam (echoApp (some ⟨⟨false⟩⟩) true) demoCodec
        (demoRequest "g1" "" "t1" "" "")).stoppedWith
      (.appError "Api4.deleteGroupSyncable" "api.group.license.error" "" 501) :=
  ⟨((mutating_handlers_require_license (echoApp none true) demoCodec
      (demoRequest "g1" "u1" "t1" "c1" "group") (Or.inl rfl) (by decide)).1 _ rfl).1,
   (mutating_handlers_require_license (echoApp none true) demoCodec
      (demoRequest "g1" "u1" "t1" "c1" "group") (Or.inl rfl) (by decide)).2.2.1,
   (mutating_handlers_require_license (echoApp (some ⟨⟨false⟩⟩) true) demoCodec
      (demoRequest "g1" "" "t1" "" "") (Or.inr ⟨⟨⟨false⟩⟩, rfl, rfl⟩) (by decide)).2.2.2.2.2.2
      .GSTeam ⟨fun _ => by decide, fun h => by cases h⟩⟩

/-- C4: when the session lacks `PERMISSION_MANAGE_SYSTEM`, every handler of the file ends
with the permission-denied error naming that permission, calls no
fetch/create/update/delete operation and writes neither status nor body: `getGroups` for
every request; the other read handlers for every request with valid required path
parameters, whatever the license is; the mutating handlers for every such request whose
body, where the handler reads one, decodes (for `createGroupSyncable`: to a syncable of
the endpoint's type), with the license enabled. -/
theorem handlers_require_manage_system (app : App) (codec : Codec) (r : Request)
    (hperm : app.SessionHasPermissionTo r.Session PERMISSION_MANAGE_SYSTEM = false) :
    (getGroups app codec r).stoppedWith (.permissionDenied PERMISSION_MANAGE_SYSTEM.Id) ∧
    (isValidId r.Params.GroupId = true →
      (getGroup app codec r).stoppedWith (.permissionDenied PERMISSION_MANAGE_SYSTEM.Id) ∧
      (∀ T, (getGroupSyncables T app codec r).stoppedWith
        (.permissionDenied PERMISSION_MANAGE_SYSTEM.Id)) ∧
      (∀ T, syncableIdValid T r.Params →
        (getGroupSyncable T app codec r).stoppedWith
          (.permissionDenied PERMISSION_MANAGE_SYSTEM.Id))) ∧
    ((∃ l, app.License = some l ∧ l.Features.LDAP = true) →
      isValidId r.Params.GroupId = true →
      (∀ g, codec.GroupFromJson r.Body = some g →
        (createGroup app codec r).stoppedWith (.permissionDenied PERMISSION_MANAGE_SYSTEM.Id) ∧
        (updateGroup app codec r).stoppedWith (.permissionDenied PERMISSION_MANAGE_SYSTEM.Id)) ∧
      (deleteGroup app r).stoppedWith (.permissionDenied PERMISSION_MANAGE_SYSTEM.Id) ∧
      (∀ action, isValidId r.Params.UserId = true →
        (createOrDeleteGroupMember action app codec r).stoppedWith
          (.permissionDenied PERMISSION_MANAGE_SYSTEM.Id)) ∧
      (∀ T s, codec.UnmarshalGroupSyncable r.Body.data = .ok (some s) → s.Type_ = T →
        (createGroupSyncable T app codec r).stoppedWith
          (.permissionDenied PERMISSION_MANAGE_SYSTEM.Id)) ∧
      (∀ T p, syncableIdValid T r.Params →
        codec.UnmarshalGroupSyncablePatch r.Body.data = .ok (some p) →
        (updateGroupSyncable T app codec r).stoppedWith
          (.permissionDenied PERMISSION_MANAGE_SYSTEM.Id)) ∧
      (∀ T, syncableIdValid T r.Params →
        (deleteGroupSyncable T app codec r).stoppedWith
          (.permissionDenied PERMISSION_MANAGE_SYSTEM.Id))) := by
  refine ⟨?_, ?_, ?_⟩
  · simp only [getGroups, hperm, Bool.not_false, if_true]
    exact stoppedWith_permission _ _ rfl rfl rfl
  · intro hg
    refine ⟨?_, ?_, ?_⟩
    · simp only [getGroup, RequireGroupId, hg, if_true, State.init, Option.isSome_none,
        Bool.false_eq_true, if_false, hperm, Bool.not_false]
      exact stoppedWith_permission _ _ rfl rfl rfl
    · intro T
      simp only [getGroupSyncables, RequireGroupId, hg, if_true, State.init, Option.isSome_none,
        Bool.false_eq_true, if_false, hperm, Bool.not_false]
      exact stoppedWith_permission _ _ rfl rfl rfl
    · intro T hid
      obtain ⟨h1, h2, h3, h4⟩ :=
        resolveSyncableID_no_return T r.Params ⟨none, [], none, []⟩ rfl hid
      simp only [getGroupSyncable, RequireGroupId, hg, if_true, State.init, Option.isSome_none,
        Bool.false_eq_true, if_false, hperm, Bool.not_false, h1]
      exact stoppedWith_permission _ _ (by simp [State.operations, h2]) h3 h4
  · intro hlic hg
    have hu := licenseUnavailable_of_enabled app hlic
    refine ⟨?_, ?_, ?_, ?_, ?_, ?_⟩
    · intro g hb
      constructor
      · simp only [createGroup, RequireGroupId, hg, if_true, State.init, Option.isSome_none,
          Bool.false_eq_true, if_false, hb, hu, hperm, Bool.not_false]
        obtain ⟨k1, k2, k3⟩ := licenseCalls_preserves app ⟨none, [], none, []⟩ rfl rfl rfl
        exact stoppedWith_permission _ _ k1 k2 k3
      · simp only [updateGroup, RequireGroupId, hg, if_true, State.init, Option.isSome_none,
          Bool.false_eq_true, if_false, hb, hu, hperm, Bool.not_false]
        obtain ⟨k1, k2, k3⟩ := licenseCalls_preserves app ⟨none, [], none, []⟩ rfl rfl rfl
        exact stoppedWith_permission _ _ k1 k2 k3
    · simp only [deleteGroup, RequireGroupId, hg, if_true, State.init, Option.isSome_none,
        Bool.false_eq_true, if_false, hu, hperm, Bool.not_false]
      obtain ⟨k1, k2, k3⟩ := licenseCalls_preserves app ⟨none, [], none, []⟩ rfl rfl rfl
      exact stoppedWith_permission _ _ k1 k2 k3
    · intro action huid
      simp only [createOrDeleteGroupMember, RequireGroupId, RequireUserId, hg, huid, if_true,
        State.init, Option.isSome_none, Bool.false_eq_true, if_false, hu, hperm, Bool.not_false]
      obtain ⟨k1, k2, k3⟩ := licenseCalls_preserves app ⟨none, [], none, []⟩ rfl rfl rfl
      exact stoppedWith_permission _ _ k1 k2 k3
    · intro T s hb hT
      simp only [createGroupSyncable, RequireGroupId, hg, if_true, State.init,
        Option.isSome_none, Bool.false_eq_true, if_false, hb, hT, hu, hperm, Bool.not_false,
        ne_eq, not_true_eq_false]
      cases r.Body.readErr
      · obtain ⟨k1, k2, k3⟩ := licenseCalls_preserves app ⟨none, [], none, []⟩ rfl rfl rfl
        exact stoppedWith_permission _ _ k1 k2 k3
      · obtain ⟨k1, k2, k3⟩ := licenseCalls_preserves app
          ((⟨none, [], none, []⟩ : State).setErr _) rfl rfl rfl
        exact stoppedWith_permission _ _ k1 k2 k3
    · intro T p hid hb
      obtain ⟨h1, h2, h3, h4⟩ :=
        resolveSyncableID_no_return T r.Params ⟨none, [], none, []⟩ rfl hid
      simp only [updateGroupSyncable, RequireGroupId, hg, if_true, State.init,
        Option.isSome_none, Bool.false_eq_true, if_false, hb, hu, hperm, Bool.not_false, h1]
      cases r.Body.readErr
      · obtain ⟨k1, k2, k3⟩ := licenseCalls_preserves app
          (resolveSyncableID T r.Params ⟨none, [], none, []⟩).1
          (by simp [State.operations, h2]) h3 h4
        exact stoppedWith_permission _ _ k1 k2 k3
      · obtain ⟨k1, k2, k3⟩ := licenseCalls_preserves app
          ((resolveSyncableID T r.Params ⟨none, [], none, []⟩).1.setErr _)
          (by simp [State.operations, State.setErr, h2]) (by simp [State.setErr, h3])
          (by simp [State.setErr, h4])
        exact stoppedWith_permission _ _ k1 k2 k3
    · intro T hid
      obtain ⟨h1, h2, h3, h4⟩ :=
        resolveSyncableID_no_return T r.Params ⟨none, [], none, []⟩ rfl hid
      simp only [deleteGroupSyncable, RequireGroupId, hg, if_true, State.init,
        Option.isSome_none, Bool.false_eq_true, if_false, hu, hperm, Bool.not_false, h1]
      obtain ⟨k1, k2, k3⟩ := licenseCalls_preserves app
        (resolveSyncableID T r.Params ⟨none, [], none, []⟩).1
        (by simp [State.operations, h2]) h3 h4
      exact stoppedWith_permission _ _ k1 k2 k3

/-- C4 at concrete requests, among them `GET /groups?page=0&per_page=10` without the
permission. -/
theorem handlers_require_manage_system_witness :
    getGroups (echoApp none false) demoCodec (demoRequest "" "" "" "" "") =
      ⟨some (.permissionDenied "manage_system"),
        [.SessionHasPermissionTo ⟨"s1", "admin"⟩ PERMISSION_MANAGE_SYSTEM], none, []⟩ ∧
    (getGroups (echoApp none false) demoCodec (demoRequest "" "" "" "" "")).stoppedWith
      (.permissionDenied PERMISSION_MANAGE_SYSTEM.Id) ∧
    (deleteGroup (echoApp (some ldapLicense) false)
        (demoRequest "g1" "" "" "" "")).stoppedWith
      (.permissionDenied PERMISSION_MANAGE_SYSTEM.Id) :=
  ⟨by decide,
   (handlers_require_manage_system (echoApp none false) demoCodec
      (demoRequest "" "" "" "" "") rfl).1,
   ((handlers_require_manage_system (echoApp (some ldapLicense) false) demoCodec
      (demoRequest "g1" "" "" "" "") rfl).2.2 ⟨ldapLicense, rfl, rfl⟩ (by decide)).2.1⟩

/-- C5: the read handlers `getGroup`, `getGroups`, `getGroupSyncable(T)` and
`getGroupSyncables(T)` do not depend on the license: for every request, permission state
and type, two applications that differ only in the license leave the same final state,
that is the same error slot, the same calls with the same arguments, and the same written
status and body. -/
theorem read_handlers_ignore_license (app : App) (codec : Codec) (r : Request)
    (license1 license2 : Option License) :
    getGroup { app with License := license1 } codec r =
      getGroup { app with License := license2 } codec r ∧
    getGroups { app with License := license1 } codec r =
      getGroups { app with License := license2 } codec r ∧
    (∀ T, getGroupSyncable T { app with License := license1 } codec r =
      getGroupSyncable T { app with License := license2 } codec r) ∧
    (∀ T, getGroupSyncables T { app with License := license1 } codec r =
      getGroupSyncables T { app with License := license2 } codec r) :=
  ⟨rfl, rfl, fun _ => rfl, fun _ => rfl⟩

/-- C6, the code at the failing input: `POST /groups` (no group id in the path) with a body
that decodes to a group, the license enabled and the permission held ends `createGroup`
with the invalid-parameter error `group_id`; `CreateGroup` is not called, no status and
no body are written. -/
theorem createGroup_post_groups_rejected :
    demoCodec.GroupFromJson (demoRequest "" "" "" "" "group").Body =
      some ⟨"", "Engineering", "cn=eng", 0, 0, 0⟩ ∧
    (echoApp (some ldapLicense) true).License = some ⟨⟨true⟩⟩ ∧
    (echoApp (some ldapLicense) true).SessionHasPermissionTo ⟨"s1", "admin"⟩
      PERMISSION_MANAGE_SYSTEM = true ∧
    createGroup (echoApp (some ldapLicense) true) demoCodec (demoRequest "" "" "" "" "group") =
      ⟨some (.invalidParam "group_id"), [], none, []⟩ := by
  decide

/-- C7, the code at the failing input: built with a type that is neither Team nor Channel,
on a request with the valid group id `g1`, the permission held and the license enabled,
`getGroupSyncable`, `updateGroupSyncable` and `deleteGroupSyncable` set the
invalid-parameter error in the `default` case and go on: each calls its operation with
an empty syncable id and writes the encoded result. -/
theorem unrecognized_type_reaches_service :
    getGroupSyncable (.unrecognized 7) (echoApp (some ldapLicense) true) demoCodec
        (demoRequest "g1" "" "" "" "patch") =
      ⟨some (.invalidParam "[Team|Channel]_id"),
        [.SessionHasPermissionTo ⟨"s1", "admin"⟩ PERMISSION_MANAGE_SYSTEM,
          .GetGroupSyncable "g1" "" (.unrecognized 7)], none, ["syncable:g1:"]⟩ ∧
    updateGroupSyncable (.unrecognized 7) (echoApp (some ldapLicense) true) demoCodec
        (demoRequest "g1" "" "" "" "patch") =
      ⟨some (.invalidParam "[Team|Channel]_id"),
        [.License, .License, .SessionHasPermissionTo ⟨"s1", "admin"⟩ PERMISSION_MANAGE_SYSTEM,
          .UpdateGroupSyncable ⟨"g1", "", true, false, .unrecognized 7⟩], none,
        ["syncable:g1:"]⟩ ∧
    deleteGroupSyncable (.unrecognized 7) (echoApp (some ldapLicense) true) demoCodec
        (demoRequest "g1" "" "" "" "patch") =
      ⟨some (.invalidParam "[Team|Channel]_id"),
        [.License, .License, .SessionHasPermissionTo ⟨"s1", "admin"⟩ PERMISSION_MANAGE_SYSTEM,
          .DeleteGroupSyncable "g1" "" (.unrecognized 7)], none, ["syncable:g1:"]⟩ := by
  decide

/-- C8 fails as stated: `PUT`/`POST` with group id `g1`, a body that does not decode, no
license and no permission ends `createGroup` with the invalid-parameter error for the
body, not with the license error. -/
theorem guard_before_decode_counterexample :
    isValidId (demoRequest "g1" "" "" "" "?").Params.GroupId = true ∧
    demoCodec.GroupFromJson (demoRequest "g1" "" "" "" "?").Body = none ∧
    (echoApp none false).License = none ∧
    (createGroup (echoApp none false) demoCodec (demoRequest "g1" "" "" "" "?")).Err =
      some (.invalidParam "group") ∧
    (createGroup (echoApp none false) demoCodec (demoRequest "g1" "" "" "" "?")).Err ≠
      some (.appError "Api4.createGroup" "api.group.license.error" "" 501) := by
  decide

/-- C8, amended: the body is decoded before the authorization guard.  For `createGroup`,
`updateGroup`, `createGroupSyncable(T)` and `updateGroupSyncable(T)` and every request with
valid path parameters whose body does not decode (an error or nil), the handler ends with
the invalid-parameter error naming the body, whatever the license and the permission are,
without any call on the application (not even the license or permission query) and
without writing. -/
theorem malformed_body_reported_before_guard (app : App) (codec : Codec) (r : Request)
    (hg : isValidId r.Params.GroupId = true) :
    (codec.GroupFromJson r.Body = none →
      createGroup app codec r = ⟨some (.invalidParam "group"), [], none, []⟩ ∧
      updateGroup app codec r = ⟨some (.invalidParam "group"), [], none, []⟩) ∧
    (∀ T, (∀ s, codec.UnmarshalGroupSyncable r.Body.data ≠ .ok (some s)) →
      createGroupSyncable T app codec r =
        ⟨some (.invalidParam groupSyncableParam), [], none, []⟩) ∧
    (∀ T, syncableIdValid T r.Params →
      (∀ p, codec.UnmarshalGroupSyncablePatch r.Body.data ≠ .ok (some p)) →
      updateGroupSyncable T app codec r =
        ⟨some (.invalidParam groupSyncablePatchParam), [], none, []⟩) := by
  refine ⟨?_, ?_, ?_⟩
  · intro hb
    constructor
    · simp [createGroup, RequireGroupId, hg, State.init, hb, State.SetInvalidParam,
        State.setErr]
    · simp [updateGroup, RequireGroupId, hg, State.init, hb, State.SetInvalidParam,
        State.setErr]
  · intro T hb
    exact createGroupSyncable_invalid_body T app codec r hg
      (fun s h => absurd h (hb s))
  · intro T hid hb
    obtain ⟨h1, h2, h3, h4⟩ :=
      resolveSyncableID_no_return T r.Params ⟨none, [], none, []⟩ rfl hid
    simp only [updateGroupSyncable, RequireGroupId, hg, if_true, State.init,
      Option.isSome_none, Bool.false_eq_true, if_false, h1]
    cases hd : codec.UnmarshalGroupSyncablePatch r.Body.data with
    | error e =>
      cases r.Body.readErr <;> simp [State.SetInvalidParam, State.setErr, h2, h3, h4]
    | ok o =>
      cases o with
      | none => cases r.Body.readErr <;> simp [State.SetInvalidParam, State.setErr, h2, h3, h4]
      | some p => exact absurd hd (hb p)

/-- C8, amended, at concrete requests with a body that does not decode and neither license
nor permission. -/
theorem malformed_body_reported_before_guard_witness :
    createGroup (echoApp none false) demoCodec (demoRequest "g1" "" "" "" "?") =
      ⟨some (.invalidParam "group"), [], none, []⟩ ∧
    updateGroupSyncable .GSChannel (echoApp none false) demoCodec
        (demoRequest "g1" "" "" "c1" "?") =
      ⟨some (.invalidParam groupSyncablePatchParam), [], none, []⟩ :=
  ⟨((malformed_body_reported_before_guard (echoApp none false) demoCodec
      (demoRequest "g1" "" "" "" "?") (by decide)).1 (by decide)).1,
   (malformed_body_reported_before_guard (echoApp none false) demoCodec
      (demoRequest "g1" "" "" "c1" "?") (by decide)).2.2 .GSChannel
      ⟨fun h => (by cases h), fun _ => by decide⟩
      (fun p h => by simp [demoCodec, demoRequest] at h)⟩

/-- C9: for `createOrDeleteGroupMember(action)` and every request with valid group id `g`
and user id `u`, the license enabled and the permission held: with the create action the
only operation called is `CreateGroupMember(g, u)`, a success whose member encodes to `b`
leaves no error, status 201 and the body `b`, and a service error is put unchanged in the
error slot with nothing written; with the delete action the same holds with
`DeleteGroupMember(g, u)` and status 200. -/
theorem createOrDeleteGroupMember_dispatch (app : App) (codec : Codec) (r : Request)
    (hg : isValidId r.Params.GroupId = true) (hu : isValidId r.Params.UserId = true)
    (hlic : ∃ l, app.License = some l ∧ l.Features.LDAP = true)
    (hperm : app.SessionHasPermissionTo r.Session PERMISSION_MANAGE_SYSTEM = true) :
    ((createOrDeleteGroupMember apiGroupMemberActionCreate app codec r).operations =
        [.CreateGroupMember r.Params.GroupId r.Params.UserId] ∧
      (∀ m b, app.CreateGroupMember r.Params.GroupId r.Params.UserId = .ok m →
        codec.MarshalGroupMember m = .ok b →
        (createOrDeleteGroupMember apiGroupMemberActionCreate app codec r).Err = none ∧
        (createOrDeleteGroupMember apiGroupMemberActionCreate app codec r).header = some 201 ∧
        (createOrDeleteGroupMember apiGroupMemberActionCreate app codec r).written = [b]) ∧
      (∀ e, app.CreateGroupMember r.Params.GroupId r.Params.UserId = .error e →
        (createOrDeleteGroupMember apiGroupMemberActionCreate app codec r).Err = some e ∧
        (createOrDeleteGroupMember apiGroupMemberActionCreate app codec r).header = none ∧
        (createOrDeleteGroupMember apiGroupMemberActionCreate app codec r).written = [])) ∧
    ((createOrDeleteGroupMember apiGroupMemberActionDelete app codec r).operations =
        [.DeleteGroupMember r.Params.GroupId r.Params.UserId] ∧
      (∀ m b, app.DeleteGroupMember r.Params.GroupId r.Params.UserId = .ok m →
        codec.MarshalGroupMember m = .ok b →
        (createOrDeleteGroupMember apiGroupMemberActionDelete app codec r).Err = none ∧
        (createOrDeleteGroupMember apiGroupMemberActionDelete app codec r).header = some 200 ∧
        (createOrDeleteGroupMember apiGroupMemberActionDelete app codec r).written = [b]) ∧
      (∀ e, app.DeleteGroupMember r.Params.GroupId r.Params.UserId = .error e →
        (createOrDeleteGroupMember apiGroupMemberActionDelete app codec r).Err = some e ∧
        (createOrDeleteGroupMember apiGroupMemberActionDelete app codec r).header = none ∧
        (createOrDeleteGroupMember apiGroupMemberActionDelete app codec r).written = [])) := by
  obtain ⟨l, hl, hldap⟩ := hlic
  refine ⟨⟨?_, ?_, ?_⟩, ⟨?_, ?_, ?_⟩⟩
  · cases hs : app.CreateGroupMember r.Params.GroupId r.Params.UserId with
    | error e =>
      simp [createOrDeleteGroupMember, RequireGroupId, RequireUserId, hg, hu, State.init,
        licenseUnavailable, licenseCalls, hl, hldap, hperm, apiGroupMemberActionCreate,
        State.call, State.setErr, State.operations, Call.isOperation, hs]
    | ok m =>
      cases hm : codec.MarshalGroupMember m <;>
      simp [createOrDeleteGroupMember, RequireGroupId, RequireUserId, hg, hu, State.init,
        licenseUnavailable, licenseCalls, hl, hldap, hperm, apiGroupMemberActionCreate,
        State.call, State.setErr, State.operations, Call.isOperation, hs, hm,
        State.WriteHeader, State.Write]
  · intro m b hs hm
    simp [createOrDeleteGroupMember, RequireGroupId, RequireUserId, hg, hu, State.init,
      licenseUnavailable, licenseCalls, hl, hldap, hperm, apiGroupMemberActionCreate,
      State.call, State.setErr, hs, hm, State.WriteHeader, State.Write, StatusCreated]
  · intro e hs
    simp [createOrDeleteGroupMember, RequireGroupId, RequireUserId, hg, hu, State.init,
      licenseUnavailable, licenseCalls, hl, hldap, hperm, apiGroupMemberActionCreate,
      State.call, State.setErr, hs]
  · cases hs : app.DeleteGroupMember r.Params.GroupId r.Params.UserId with
    | error e =>
      simp [createOrDeleteGroupMember, RequireGroupId, RequireUserId, hg, hu, State.init,
        licenseUnavailable, licenseCalls, hl, hldap, hperm, apiGroupMemberActionCreate,
        apiGroupMemberActionDelete,
        State.call, State.setErr, State.operations, Call.isOperation, hs]
    | ok m =>
      cases hm : codec.MarshalGroupMember m <;>
      simp [createOrDeleteGroupMember, RequireGroupId, RequireUserId, hg, hu, State.init,
        licenseUnavailable, licenseCalls, hl, hldap, hperm, apiGroupMemberActionCreate,
        apiGroupMemberActionDelete,
        State.call, State.setErr, State.operations, Call.isOperation, hs, hm,
        State.WriteHeader, State.Write]
  · intro m b hs hm
    simp [createOrDeleteGroupMember, RequireGroupId, RequireUserId, hg, hu, State.init,
      licenseUnavailable, licenseCalls, hl, hldap, hperm, apiGroupMemberActionCreate,
      apiGroupMemberActionDelete,
      State.call, State.setErr, hs, hm, State.WriteHeader, State.Write, StatusOK]
  · intro e hs
    simp [createOrDeleteGroupMember, RequireGroupId, RequireUserId, hg, hu, State.init,
      licenseUnavailable, licenseCalls, hl, hldap, hperm, apiGroupMemberActionCreate,
      apiGroupMemberActionDelete,
      State.call, State.setErr, hs]

/-- C9 at `DELETE /groups/g1/members/u1` and at the create action on the same ids. -/
theorem createOrDeleteGroupMember_dispatch_witness :
    (createOrDeleteGroupMember apiGroupMemberActionDelete (echoApp (some ldapLicense) true)
        demoCodec (demoRequest "g1" "u1" "" "" "")).operations =
      [.DeleteGroupMember "g1" "u1"] ∧
    (createOrDeleteGroupMember apiGroupMemberActionDelete (echoApp (some ldapLicense) true)
        demoCodec (demoRequest "g1" "u1" "" "" "")).header = some 200 ∧
    (createOrDeleteGroupMember apiGroupMemberActionDelete (echoApp (some ldapLicense) true)
        demoCodec (demoRequest "g1" "u1" "" "" "")).written = ["member:g1:u1"] ∧
    (createOrDeleteGroupMember apiGroupMemberActionCreate (echoApp (some ldapLicense) true)
        demoCodec (demoRequest "g1" "u1" "" "" "")).header = some 201 :=
  have h := createOrDeleteGroupMember_dispatch (echoApp (some ldapLicense) true) demoCodec
    (demoRequest "g1" "u1" "" "" "") (by decide) (by decide) ⟨ldapLicense, rfl, rfl⟩ rfl
  ⟨h.2.1, (h.2.2.1 ⟨"g1", "u1", 0, 0⟩ "member:g1:u1" rfl rfl).2.1,
    (h.2.2.1 ⟨"g1", "u1", 0, 0⟩ "member:g1:u1" rfl rfl).2.2,
    (h.1.2.1 ⟨"g1", "u1", 0, 0⟩ "member:g1:u1" rfl rfl).2.1⟩

/-- C10: `createGroupSyncable(T)` does not bind the created syncable to the path: for every
request with a valid path group id, a body that decodes to a syncable `s` with
`s.Type = T`, the license enabled and the permission held, the only operation called is
`CreateGroupSyncable` on exactly `s`, with the `GroupId` and `SyncableId` of the body; the
path group id does not occur in the call. -/
theorem createGroupSyncable_passes_body_syncable (T : GroupSyncableType) (app : App)
    (codec : Codec) (r : Request) (s : GroupSyncable)
    (hg : isValidId r.Params.GroupId = true)
    (hbody : codec.UnmarshalGroupSyncable r.Body.data = .ok (some s)) (hT : s.Type_ = T)
    (hlic : ∃ l, app.License = some l ∧ l.Features.LDAP = true)
    (hperm : app.SessionHasPermissionTo r.Session PERMISSION_MANAGE_SYSTEM = true) :
    (createGroupSyncable T app codec r).operations = [.CreateGroupSyncable s] := by
  obtain ⟨l, hl, hldap⟩ := hlic
  unfold createGroupSyncable
  simp only [RequireGroupId, hg, if_true, State.init, Option.isSome_none, Bool.false_eq_true,
    if_false, hbody, hT, hperm]
  cases r.Body.readErr <;> cases app.CreateGroupSyncable s <;>
    simp [licenseCalls, licenseUnavailable, hl, hldap, State.call, State.setErr,
      State.operations, Call.isOperation, State.WriteHeader, State.Write] <;>
    split <;> simp [Call.isOperation]

/-- C10 at `POST /groups/g1/teams` with a body naming group `g2`: the service is called
with `g2`. -/
theorem createGroupSyncable_passes_body_syncable_witness :
    (createGroupSyncable .GSTeam (echoApp (some ldapLicense) true) demoCodec
        (demoRequest "g1" "" "" "" "team")).operations =
      [.CreateGroupSyncable ⟨"g2", "t9", true, false, .GSTeam⟩] :=
  createGroupSyncable_passes_body_syncable .GSTeam (echoApp (some ldapLicense) true) demoCodec
    (demoRequest "g1" "" "" "" "team") ⟨"g2", "t9", true, false, .GSTeam⟩ (by decide) rfl rfl
    ⟨ldapLicense, rfl, rfl⟩ rfl

end Api4
